import Mathlib

/-!
Verification of the session/quota/pipeline core of the PDF bot
(`src/main.py`, `src/utils.py`) against its natural-language
specification.  The Python code is shallowly embedded: pure helpers
become Lean functions, the Supabase/Redis-backed quota tracker becomes
explicit state passing over a `QuotaState`, fallible operations return
`Except`, and the PyPDF2/reportlab/pdfplumber library calls are
modelled at the page level.
-/

deriving instance DecidableEq for Except

/-! ## Configuration (`BotConfig`, src/main.py lines 83-102) -/

/-- `BotConfig.MAX_FILE_SIZE = 50 * 1024 * 1024`. -/
def MAX_FILE_SIZE : Nat := 50 * 1024 * 1024

/-- `BotConfig.FREE_DAILY_LIMIT = 5`. -/
def FREE_DAILY_LIMIT : Nat := 5

/-- `BotConfig.PREMIUM_DAILY_LIMIT = 100`. -/
def PREMIUM_DAILY_LIMIT : Nat := 100

/-- The per-tier ceiling chosen in `handle_document` (src/main.py line 707):
`limit = PREMIUM_DAILY_LIMIT if user_data and user_data.get('is_premium')
else FREE_DAILY_LIMIT`. -/
def dailyLimit (isPremium : Bool) : Nat :=
  if isPremium then PREMIUM_DAILY_LIMIT else FREE_DAILY_LIMIT

/-! ## Quota tracker (`DatabaseManager`, src/main.py lines 105-181)

The two storage tiers of one `(user_id, day)` usage record: `cache` is
the Redis fast counter (`daily_usage:{user}:{day}`, `none` = cache
miss), `log` is the number of `operations_log` rows for that user-day.
`Infra` records whether each backend call succeeds; in the Python code
an unreachable backend raises, and both methods wrap their whole body
in `try/except`. -/

structure Infra where
  redisUp : Bool
  supabaseUp : Bool
deriving DecidableEq

structure QuotaState where
  cache : Option Nat
  log : Nat
deriving DecidableEq

/-- `DatabaseManager.get_daily_usage` (src/main.py lines 164-181):
read the Redis key; on a hit return the cached count (a cached `b"0"`
is non-empty bytes, hence truthy, so a cache hit always returns the
cached value); on a miss count the `operations_log` rows for today,
`setex` the result into Redis, and return it.  Any exception (Redis or
Supabase unreachable) is caught by the blanket `except`, which logs and
`return 0` — a Redis failure never reaches the durable query. -/
def get_daily_usage (infra : Infra) (st : QuotaState) : Nat × QuotaState :=
  if infra.redisUp then
    match st.cache with
    | some c => (c, st)
    | none =>
      if infra.supabaseUp then (st.log, { st with cache := some st.log })
      else (0, st)
  else (0, st)

/-- `DatabaseManager.log_operation` (src/main.py lines 151-162): insert
one row into `operations_log`; the Redis counter is not touched.  An
insert failure is caught, logged and dropped. -/
def log_operation (infra : Infra) (st : QuotaState) : QuotaState :=
  if infra.supabaseUp then { st with log := st.log + 1 } else st

/-- The spec's invariant between the two tiers: whenever the fast
counter holds data for the user-day, it equals the durable-log count. -/
def cacheConsistent (st : QuotaState) : Prop :=
  st.cache = none ∨ st.cache = some st.log

instance (st : QuotaState) : Decidable (cacheConsistent st) := by
  unfold cacheConsistent; infer_instance

/-! ## Text extraction (`PDFProcessor.extract_text`, src/main.py lines 238-251)

Python strings are embedded as `List Char`; `str.strip()` and the page
texts given by `pdfplumber` (`page.extract_text()` returns `None` or a
string, mapped through `or ""`) are modelled explicitly. -/

/-- The ASCII whitespace stripped by Python's `str.strip()`. -/
def pyIsSpace (c : Char) : Bool :=
  c = ' ' || c = '\t' || c = '\n' || c = '\r' || c = '\x0b' || c = '\x0c'

/-- Python `str.strip()`: drop whitespace from both ends. -/
def pyStrip (l : List Char) : List Char :=
  ((l.dropWhile pyIsSpace).reverse.dropWhile pyIsSpace).reverse

/-- The `"\n\n"` appended after every page's text. -/
def blankSep : List Char := ['\n', '\n']

/-- `PDFProcessor.extract_text` (src/main.py lines 238-251): starting
from `text = ""`, append `page.extract_text() or ""` and then `"\n\n"`
for each page in order, and return `text.strip()`.  A page is an
`Option (List Char)`: `none` when `extract_text()` yields no text. -/
def extract_text (pages : List (Option (List Char))) : List Char :=
  pyStrip ((pages.map (fun t => t.getD [] ++ blankSep)).flatten)

/-- Modelled from the spec: "concatenates per-page extracted text
separated by a blank line, trimmed of leading/trailing whitespace;
pages yielding no text contribute an empty segment".  Stated with
`List.intercalate`, to be compared with `extract_text` above. -/
def extractTextSpec (pages : List (Option (List Char))) : List Char :=
  pyStrip (List.intercalate blankSep (pages.map (fun t => t.getD [])))

/-! ## Decrypt (`PDFProcessor.decrypt_pdf`, src/main.py lines 342-362) -/

/-- The failure values `PDFProcessor` methods can signal.  Every method
body is wrapped in `try/except Exception` and re-raises
`Exception(f"فشل في ...: {e}")`, modelled as `genericFailure` tagged
with the operation.  `incorrectPassword` is the typed failure the spec
demands of Decrypt; it appears nowhere in the code and exists in this
type only so the spec's claim can be stated. -/
inductive PdfError where
  | genericFailure (operation : String)
  | incorrectPassword
deriving DecidableEq

/-- A readable PDF document at the page level: its page contents and,
when encrypted, its password. -/
structure PdfDoc (α : Type) where
  pages : List α
  password : Option String
deriving DecidableEq

/-- `PDFProcessor.decrypt_pdf` (src/main.py lines 342-362): open a
reader; `if reader.is_encrypted: reader.decrypt(password)`; copy every
page into a writer and return its bytes.  Modelled from the PyPDF2
library (outside src/): `decrypt` with a wrong password leaves the
reader undecrypted and iterating `reader.pages` then raises, so the
blanket `except` turns a wrong password into the generic re-raised
exception; with the right password, or on an unencrypted input, the
pages are copied through unchanged into an unencrypted output. -/
def decrypt_pdf {α : Type} (doc : PdfDoc α) (password : String) :
    Except PdfError (PdfDoc α) :=
  match doc.password with
  | none => .ok ⟨doc.pages, none⟩
  | some p =>
    if password = p then .ok ⟨doc.pages, none⟩
    else .error (.genericFailure "decrypt")

/-! ## Merge (`PDFProcessor.merge_pdfs`, src/main.py lines 191-208) -/

/-- The `for pdf_bytes in pdf_files: merger.append(...)` loop: each
input is `some pages` when readable, `none` when `merger.append`
raises; the first unreadable input aborts the whole merge. -/
def mergeLoop {α : Type} : List (Option (List α)) → Option (List α)
  | [] => some []
  | none :: _ => none
  | some d :: rest => (mergeLoop rest).map (fun acc => d ++ acc)

/-- `PDFProcessor.merge_pdfs` (src/main.py lines 191-208): append every
input into a `PdfMerger` in order and write the result; any exception
is re-raised as the generic merge failure, so no partial output is
returned. -/
def merge_pdfs {α : Type} (inputs : List (Option (List α))) :
    Except PdfError (List α) :=
  match mergeLoop inputs with
  | some pages => .ok pages
  | none => .error (.genericFailure "merge")

/-! ## Split (`PDFProcessor.split_pdf`, src/main.py lines 210-236) -/

/-- The inner loop `for page_num in range(start, end'):
writer.add_page(reader.pages[page_num])` — the pages of `pages` with
indices in `[s, e)`. -/
def pagesSlice {α : Type} (pages : List α) (s e : Nat) : List α :=
  (pages.take e).drop s

/-- `PDFProcessor.split_pdf` (src/main.py lines 210-236): when
`page_ranges` is absent or empty (`if not page_ranges:`), use
`[(i, i+1) for i in range(total_pages)]`; for each `(start, end)`
produce one output holding the pages in
`range(start, min(end, total_pages))`. -/
def split_pdf {α : Type} (pages : List α) (page_ranges : List (Nat × Nat)) :
    List (List α) :=
  let total := pages.length
  let ranges :=
    if page_ranges.isEmpty then (List.range total).map (fun i => (i, i + 1))
    else page_ranges
  ranges.map (fun r => pagesSlice pages r.1 (min r.2 total))

/-! ## Watermark (`PDFProcessor.add_watermark`, src/main.py lines 270-301) -/

/-- Modelled from the reportlab library (outside src/): the public
drawing methods of `reportlab.pdfgen.canvas.Canvas` used around the
watermark code.  The centred-text method is `drawCentredString`;
`drawCentredText` is not an attribute of `Canvas`. -/
def reportlabCanvasMethods : List String :=
  ["setFont", "setFillColor", "translate", "rotate", "drawString",
   "drawRightString", "drawCentredString", "drawAlignedString", "save"]

/-- The sequence of `Canvas` methods `add_watermark` invokes when
building the overlay page (src/main.py lines 278-284). -/
def watermarkCanvasCalls : List String :=
  ["setFont", "setFillColor", "translate", "rotate", "drawCentredText",
   "save"]

/-- The diagonal text stamp the overlay page would carry. -/
structure Stamp where
  text : String
  opacity : ℚ
deriving DecidableEq

/-- Building the watermark overlay page (src/main.py lines 277-288):
each canvas call is an attribute lookup on `Canvas`; the first lookup
of a method `Canvas` does not have raises `AttributeError`, named here
by the offending method. -/
def buildWatermarkPage (text : String) (opacity : ℚ) :
    Except String Stamp :=
  match watermarkCanvasCalls.find? (fun m => !(reportlabCanvasMethods.contains m)) with
  | some m => .error m
  | none => .ok ⟨text, opacity⟩

/-- `PDFProcessor.add_watermark` (src/main.py lines 270-301): build the
overlay page, then `page.merge_page(watermark_page)` and
`writer.add_page(page)` for every input page in order (a composed page
is the original content paired with the stamp); any exception inside —
including the `AttributeError` from building the overlay — is re-raised
as the generic watermark failure. -/
def add_watermark {α : Type} (pages : List α) (text : String) (opacity : ℚ) :
    Except PdfError (List (α × Stamp)) :=
  match buildWatermarkPage text opacity with
  | .error _ => .error (.genericFailure "watermark")
  | .ok stamp => .ok (pages.map (fun p => (p, stamp)))

/-! ## Password validation (`ValidationHelper.validate_password`,
src/utils.py lines 164-173) -/

def passwordShortMsg : String := "كلمة المرور قصيرة جداً (الحد الأدنى 4 أحرف)"

def passwordLongMsg : String := "كلمة المرور طويلة جداً (الحد الأقصى 128 حرف)"

def passwordOkMsg : String := "كلمة مرور صحيحة"

/-- `ValidationHelper.validate_password` (src/utils.py lines 164-173):
a pure static method returning `(ok, message)`. -/
def validate_password (password : String) : Bool × String :=
  if password.length < 4 then (false, passwordShortMsg)
  else if 128 < password.length then (false, passwordLongMsg)
  else (true, passwordOkMsg)

/-! ## File-size formatting (`MessageFormatter.format_file_size`,
src/utils.py lines 67-80)

The Python loop divides a float by `1024.0`; the running value is
embedded as a `ℚ` (division by the power of two 1024 is exact in
binary floating point, so the loop control agrees). -/

def size_names : List String := ["B", "KB", "MB", "GB", "TB"]

/-- The `while size_bytes >= 1024 and i < len(size_names) - 1:` loop. -/
def fsLoop (s : ℚ) (i : Nat) : ℚ × Nat :=
  if h : 1024 ≤ s ∧ i < size_names.length - 1 then fsLoop (s / 1024) (i + 1)
  else (s, i)
termination_by size_names.length - 1 - i
decreasing_by simp [size_names] at h ⊢; omega

/-- The `f"{size_bytes:.1f}"` rendering: one decimal digit, rounding to
the nearest tenth (half up; Python formats the nearest binary float). -/
def renderTenths (q : ℚ) : String :=
  let tenths : Int := ⌊q * 10 + (1 : ℚ) / 2⌋
  toString (tenths / 10) ++ "." ++ toString (tenths % 10)

/-- `MessageFormatter.format_file_size` (src/utils.py lines 67-80). -/
def format_file_size (size_bytes : Nat) : String :=
  if size_bytes = 0 then "0 B"
  else
    let r := fsLoop (size_bytes : ℚ) 0
    renderTenths r.1 ++ " " ++ size_names.getD r.2 "B"

/-! ## Handlers (`BotHandlers`, src/main.py lines 375-833) -/

/-- The reply `handle_document` sends: reject non-PDF names, reject
oversized files, reject a user at the daily ceiling, otherwise present
the inline keyboard of operations. -/
inductive DocReply where
  | invalidType
  | tooLarge
  | quotaExceeded
  | operationKeyboard
deriving DecidableEq

/-- `BotHandlers.handle_document` (src/main.py lines 684-743): check
`file_name.lower().endswith('.pdf')`, then
`file_size > MAX_FILE_SIZE`, then `daily_usage >= limit`, then reply
with the operation keyboard.  The handler itself invokes no
`PDFProcessor` function. -/
def handle_document (isPdfName : Bool) (fileSize : Nat) (isPremium : Bool)
    (dailyUsage : Nat) : DocReply :=
  if !isPdfName then .invalidType
  else if MAX_FILE_SIZE < fileSize then .tooLarge
  else if dailyLimit isPremium ≤ dailyUsage then .quotaExceeded
  else .operationKeyboard

/-- The message `process_extract_text` leaves the user with. -/
inductive ExtractReply where
  | errorMsg
  | noTextFound
  | sentFile
deriving DecidableEq

/-- What one run of the extract-text callback did: the reply, whether
`PDFProcessor.extract_text` was invoked, and whether
`log_operation("extract_text", ...)` was recorded. -/
structure CallbackOutcome where
  reply : ExtractReply
  engineInvoked : Bool
  logged : Bool
deriving DecidableEq

/-- `BotHandlers.process_extract_text` (src/main.py lines 780-833), the
handler the `extract_text_{file_id}` button press is routed to
(src/main.py lines 766-768): download the file (`none` if the download
raises, before the engine is reached), run
`PDFProcessor.extract_text` on the bytes (`.error` if the engine raises
on an unreadable document), reply "no text" if the stripped result is
empty, else send the text file and record the operation.  `dailyUsage`
is the ambient usage count of the pressing user; the handler never
reads it — no quota check appears anywhere on this path. -/
def process_extract_text (dailyUsage : Nat)
    (download : Option (Except Unit (List (Option (List Char))))) :
    CallbackOutcome :=
  match download with
  | none => ⟨.errorMsg, false, false⟩
  | some (.error _) => ⟨.errorMsg, true, false⟩
  | some (.ok pages) =>
    let t := extract_text pages
    if pyStrip t = [] then ⟨.noTextFound, true, false⟩
    else ⟨.sentFile, true, true⟩

/-! ## Claims -/

/-- Claim C1, as stated, is false of the code: quota is enforced only
in `handle_document`; the operation-selection callback performs no
quota check, so selecting extract-text with a readable downloaded
document invokes the engine even when the recorded usage is at the
free-tier ceiling. -/
theorem c1_counterexample :
    ¬ (∀ (dailyUsage : Nat) download, dailyLimit false ≤ dailyUsage →
        (process_extract_text dailyUsage download).engineInvoked = false) := by
  intro h
  exact absurd (h 5 (some (.ok [some ['h', 'i']])) (by decide)) (by decide)

/-- Claim C1 (amended): for a PDF upload within the size bound from a
user at or above the tier ceiling, `handle_document` replies
quota-exceeded and does not present the operation keyboard (and the
upload handler invokes no engine function); the extract-text selection
callback itself performs no quota check and invokes the engine on any
readable downloaded document regardless of usage. -/
theorem c1_upload_quota_gate (fileSize : Nat) (isPremium : Bool) (dailyUsage : Nat)
    (hsize : fileSize ≤ MAX_FILE_SIZE)
    (hquota : dailyLimit isPremium ≤ dailyUsage) :
    handle_document true fileSize isPremium dailyUsage = .quotaExceeded ∧
    handle_document true fileSize isPremium dailyUsage ≠ .operationKeyboard ∧
    ∀ pages, (process_extract_text dailyUsage (some (.ok pages))).engineInvoked = true := by
  have hsz : ¬ MAX_FILE_SIZE < fileSize := by omega
  refine ⟨?_, ?_, ?_⟩
  · simp [handle_document, hsz, hquota]
  · simp [handle_document, hsz, hquota]
  · intro pages
    simp only [process_extract_text]
    split <;> rfl

theorem c1_upload_quota_gate_witness :
    handle_document true 1000 false 5 = .quotaExceeded ∧
    (process_extract_text 5 (some (.ok [some ['h', 'i']]))).engineInvoked = true :=
  ⟨(c1_upload_quota_gate 1000 false 5 (by decide) (by decide)).1,
   (c1_upload_quota_gate 1000 false 5 (by decide) (by decide)).2.2 [some ['h', 'i']]⟩

/-- Claim C2, as stated, is false of the code: on a cache miss
`get_daily_usage` does not always answer the durable-log count — the
blanket `except` returns 0 when the durable query fails (here the log
holds 3 entries but the answer is 0). -/
theorem c2_counterexample :
    ¬ (∀ infra st, st.cache = none → (get_daily_usage infra st).1 = st.log) := by
  intro h
  exact absurd (h ⟨true, false⟩ ⟨none, 3⟩ rfl) (by decide)

/-- Claim C2 (amended): on a cache miss with both tiers reachable,
`get_daily_usage` computes the answer from the durable-log count; but
when the durable query fails, or the cache read itself fails (which
skips the durable fallback entirely), the exception handler answers 0. -/
theorem c2_cache_miss (st : QuotaState) (h : st.cache = none) :
    (get_daily_usage ⟨true, true⟩ st).1 = st.log ∧
    (get_daily_usage ⟨true, false⟩ st).1 = 0 ∧
    ∀ b, (get_daily_usage ⟨false, b⟩ st).1 = 0 := by
  obtain ⟨cache, log⟩ := st
  subst h
  refine ⟨rfl, rfl, fun b => rfl⟩

theorem c2_cache_miss_witness :
    (⟨none, 3⟩ : QuotaState).cache = none ∧
    (get_daily_usage ⟨true, true⟩ ⟨none, 3⟩).1 = 3 :=
  ⟨rfl, (c2_cache_miss ⟨none, 3⟩ rfl).1⟩

/-- Claim C3, as stated, is false of the code: `log_operation` appends
to the durable log without touching the cache, so an append after the
cache was populated (cache = log = 2 here) leaves the cache
understating the count. -/
theorem c3_counterexample :
    ¬ (∀ infra st, cacheConsistent st → cacheConsistent (log_operation infra st)) := by
  intro h
  exact absurd (h ⟨true, true⟩ ⟨some 2, 2⟩ (by decide)) (by decide)

/-- Claim C3 (amended): the equality between the fast counter and the
durable-log count holds at the moment `get_daily_usage` repopulates the
cache on a miss, but `log_operation` appends to the log without
updating or invalidating the cache, so a recorded operation after the
cache was populated leaves the cached value one below the log count
until the cache entry expires. -/
theorem c3_cache_population (st : QuotaState) :
    (st.cache = none → cacheConsistent ((get_daily_usage ⟨true, true⟩ st).2)) ∧
    (∀ infra, (log_operation infra st).cache = st.cache) ∧
    (st.cache = some st.log →
      (log_operation ⟨true, true⟩ st).cache = some st.log ∧
      (log_operation ⟨true, true⟩ st).log = st.log + 1) := by
  refine ⟨?_, ?_, ?_⟩
  · intro h
    simp [get_daily_usage, cacheConsistent, h]
  · intro infra
    unfold log_operation
    split <;> rfl
  · intro h
    simp [log_operation, h]

theorem c3_cache_population_witness :
    cacheConsistent ((get_daily_usage ⟨true, true⟩ ⟨none, 2⟩).2) ∧
    (log_operation ⟨true, true⟩ ⟨some 2, 2⟩).log = 2 + 1 :=
  ⟨(c3_cache_population ⟨none, 2⟩).1 rfl,
   ((c3_cache_population ⟨some 2, 2⟩).2.2 rfl).2⟩

/-- Claim C4, as stated, is false of the code: with a wrong password
`decrypt_pdf` fails, but with the generic re-raised exception, not the
typed `incorrectPassword` the spec demands. -/
theorem c4_counterexample :
    decrypt_pdf (⟨[0], some "a"⟩ : PdfDoc Nat) "b" =
      .error (.genericFailure "decrypt") ∧
    decrypt_pdf (⟨[0], some "a"⟩ : PdfDoc Nat) "b" ≠
      .error .incorrectPassword := by
  refine ⟨rfl, ?_⟩
  intro h
  simp [decrypt_pdf] at h

/-- Claim C4 (amended): for every unencrypted input `decrypt_pdf` is a
pass-through success returning the pages unchanged; for every encrypted
input and wrong password it fails, but with the generic wrapped
failure — the code's catch-all re-raises a generic exception and no
typed `incorrectPassword` is ever produced. -/
theorem c4_decrypt (α : Type) (doc : PdfDoc α) (pw p : String) :
    (doc.password = none → decrypt_pdf doc pw = .ok ⟨doc.pages, none⟩) ∧
    (doc.password = some p → pw ≠ p →
      decrypt_pdf doc pw = .error (.genericFailure "decrypt")) := by
  constructor
  · intro h
    simp [decrypt_pdf, h]
  · intro h hne
    simp [decrypt_pdf, h, hne]

theorem c4_decrypt_witness :
    decrypt_pdf (⟨[7], none⟩ : PdfDoc Nat) "x" = .ok ⟨[7], none⟩ ∧
    decrypt_pdf (⟨[7], some "a"⟩ : PdfDoc Nat) "b" =
      .error (.genericFailure "decrypt") :=
  ⟨(c4_decrypt Nat ⟨[7], none⟩ "x" "a").1 rfl,
   (c4_decrypt Nat ⟨[7], some "a"⟩ "b" "a").2 rfl (by decide)⟩

/-- Claim C8: the code cannot watermark anything — building the overlay
page calls `drawCentredText`, which is not a method of reportlab's
`Canvas` (the method is `drawCentredString`), so every invocation
raises `AttributeError` and is re-raised as the generic watermark
failure instead of returning the composed document. -/
theorem c8_watermark_attribute_bug :
    add_watermark ([0] : List Nat) "CONFIDENTIAL" (3 / 10 : ℚ) =
      .error (.genericFailure "watermark") ∧
    buildWatermarkPage "CONFIDENTIAL" (3 / 10 : ℚ) =
      .error "drawCentredText" := by
  constructor <;> rfl

/-- Claim C9: `validate_password` accepts exactly the passwords whose
length lies within the enforced bounds 4..128, and every rejection
carries one of the two explanatory messages (the method is a pure
static function, so a failed validation changes no state). -/
theorem c9_validate_password (p : String) :
    ((validate_password p).1 = true ↔ 4 ≤ p.length ∧ p.length ≤ 128) ∧
    ((validate_password p).1 = false →
      (validate_password p).2 = passwordShortMsg ∨
      (validate_password p).2 = passwordLongMsg) := by
  unfold validate_password
  constructor
  · split
    · simp; omega
    · split
      · simp; omega
      · simp; omega
  · split
    · intro; left; rfl
    · split
      · intro; right; rfl
      · simp

theorem c9_validate_password_witness :
    ((validate_password "abcd").1 = true ↔
      4 ≤ "abcd".length ∧ "abcd".length ≤ 128) ∧
    ((validate_password "abc").1 = false →
      (validate_password "abc").2 = passwordShortMsg ∨
      (validate_password "abc").2 = passwordLongMsg) :=
  ⟨(c9_validate_password "abcd").1, (c9_validate_password "abc").2⟩

theorem mergeLoop_all_some {α : Type} (inputs : List (Option (List α)))
    (h : ∀ d ∈ inputs, d ≠ none) :
    mergeLoop inputs = some ((inputs.map (fun d => d.getD [])).flatten) := by
  induction inputs with
  | nil => rfl
  | cons hd tl ih =>
    cases hd with
    | none => exact absurd rfl (h none (List.mem_cons_self _ _))
    | some d =>
      simp [mergeLoop, ih (fun x hx => h x (List.mem_cons_of_mem _ hx))]

theorem mergeLoop_has_none {α : Type} (inputs : List (Option (List α)))
    (h : none ∈ inputs) : mergeLoop inputs = none := by
  induction inputs with
  | nil => cases h
  | cons hd tl ih =>
    cases hd with
    | none => rfl
    | some d =>
      have htl : none ∈ tl := by simpa using h
      simp [mergeLoop, ih htl]

/-- Claim C6: for every non-empty list of readable inputs, `merge_pdfs`
returns the concatenation of the inputs' page sequences in input order
(each input's internal page order preserved by `++`); if any input is
unreadable, the operation fails with the merge error and returns no
partial output. -/
theorem c6_merge {α : Type} (inputs : List (Option (List α))) (hne : inputs ≠ []) :
    ((∀ d ∈ inputs, d ≠ none) →
      merge_pdfs inputs = .ok ((inputs.map (fun d => d.getD [])).flatten)) ∧
    (none ∈ inputs → merge_pdfs inputs = .error (.genericFailure "merge")) := by
  constructor
  · intro h
    simp [merge_pdfs, mergeLoop_all_some inputs h]
  · intro h
    simp [merge_pdfs, mergeLoop_has_none inputs h]

theorem c6_merge_witness :
    ([some [1, 2], some [3, 4, 5]] : List (Option (List Nat))) ≠ [] ∧
    merge_pdfs ([some [1, 2], some [3, 4, 5]] : List (Option (List Nat))) =
      .ok [1, 2, 3, 4, 5] := by
  refine ⟨by decide, ?_⟩
  have h := (c6_merge ([some [1, 2], some [3, 4, 5]] : List (Option (List Nat)))
    (by decide)).1 (by decide)
  simpa using h

theorem pagesSlice_length {α : Type} (pages : List α) (s e : Nat)
    (he : e ≤ pages.length) : (pagesSlice pages s e).length = e - s := by
  simp [pagesSlice, Nat.min_eq_left he]

theorem pagesSlice_get {α : Type} (pages : List α) (s e j : Nat)
    (hj : s + j < e) : (pagesSlice pages s e)[j]? = pages[s + j]? := by
  unfold pagesSlice
  rw [List.getElem?_drop]
  exact List.getElem?_take_of_lt hj

theorem take_succ_drop {α : Type} (l : List α) :
    ∀ i, (hi : i < l.length) → (l.take (i + 1)).drop i = [l[i]] := by
  induction l with
  | nil => intro i hi; cases hi
  | cons a t ih =>
    intro i hi
    cases i with
    | zero => rfl
    | succ i =>
      have hit : i < t.length := Nat.lt_of_succ_lt_succ hi
      simpa using ih i hit

/-- Claim C5: for every readable document and list of half-open ranges,
`split_pdf` produces one output per range; output `i` for range
`(s, e)` has the `min e n - s` pages `s, s+1, …, min e n - 1` of the
input (any `e` beyond the page count is clamped — the function is
total, no out-of-bounds failure); with no ranges given it produces one
single-page output per input page. -/
theorem c5_split {α : Type} (pages : List α) (ranges : List (Nat × Nat)) :
    (ranges ≠ [] →
      (split_pdf pages ranges).length = ranges.length ∧
      ∀ (i : Nat) (r : Nat × Nat), ranges[i]? = some r →
        ∃ out : List α, (split_pdf pages ranges)[i]? = some out ∧
          out.length = min r.2 pages.length - r.1 ∧
          ∀ j : Nat, j < out.length → out[j]? = pages[r.1 + j]?) ∧
    split_pdf pages [] = pages.map (fun p => [p]) := by
  constructor
  · intro hne
    have hr : split_pdf pages ranges =
        ranges.map (fun r => pagesSlice pages r.1 (min r.2 pages.length)) := by
      simp [split_pdf, List.isEmpty_iff, hne]
    constructor
    · rw [hr, List.length_map]
    · intro i r hi
      refine ⟨pagesSlice pages r.1 (min r.2 pages.length), ?_, ?_, ?_⟩
      · rw [hr, List.getElem?_map, hi]
        rfl
      · exact pagesSlice_length pages r.1 (min r.2 pages.length)
          (Nat.min_le_right _ _)
      · intro j hj
        apply pagesSlice_get
        rw [pagesSlice_length pages r.1 (min r.2 pages.length)
          (Nat.min_le_right _ _)] at hj
        omega
  · have hs : split_pdf pages [] =
        (List.range pages.length).map
          (fun i => pagesSlice pages i (min (i + 1) pages.length)) := by
      simp [split_pdf]
    apply List.ext_getElem?
    intro i
    rw [hs, List.getElem?_map, List.getElem?_map]
    by_cases hi : i < pages.length
    · rw [List.getElem?_range hi, List.getElem?_eq_getElem hi]
      have hmin : min (i + 1) pages.length = i + 1 := Nat.min_eq_left hi
      simp only [Option.map_some']
      rw [hmin]
      rw [show pagesSlice pages i (i + 1) = [pages[i]] from take_succ_drop pages i hi]
    · have h1 : (List.range pages.length)[i]? = none := by
        rw [List.getElem?_eq_none]
        simpa using Nat.le_of_not_lt hi
      have h2 : pages[i]? = none := by
        rw [List.getElem?_eq_none]
        exact Nat.le_of_not_lt hi
      rw [h1, h2]
      rfl

theorem c5_split_witness :
    ([(0, 2), (2, 10)] : List (Nat × Nat)) ≠ [] ∧
    (split_pdf [10, 20, 30, 40, 50] [(0, 2), (2, 10)]).length = 2 ∧
    split_pdf ([10, 20] : List Nat) [] = [[10], [20]] := by
  refine ⟨by decide, ?_, ?_⟩
  · exact ((c5_split [10, 20, 30, 40, 50] [(0, 2), (2, 10)]).1 (by decide)).1
  · have h := (c5_split ([10, 20] : List Nat) [(0, 2), (2, 10)]).2
    simpa using h

theorem dropWhile_all_append (P : Char → Bool) (l m : List Char)
    (h : ∀ c ∈ l, P c) : (l ++ m).dropWhile P = m.dropWhile P := by
  induction l with
  | nil => rfl
  | cons a t ih =>
    have ha : P a = true := h a (List.mem_cons_self _ _)
    simp only [List.cons_append, List.dropWhile_cons, ha, if_true]
    exact ih (fun c hc => h c (List.mem_cons_of_mem _ hc))

theorem pyStrip_append_blankSep (x : List Char) :
    pyStrip (x ++ blankSep) = pyStrip x := by
  unfold pyStrip
  rw [List.dropWhile_append]
  by_cases hx : (x.dropWhile pyIsSpace).isEmpty
  · rw [if_pos hx]
    have h1 : blankSep.dropWhile pyIsSpace = ([] : List Char) := rfl
    have hx' : x.dropWhile pyIsSpace = [] := List.isEmpty_iff.mp hx
    rw [h1, hx']
  · rw [if_neg hx, List.reverse_append,
      dropWhile_all_append pyIsSpace blankSep.reverse _ (by decide)]

theorem intercalate_cons_cons' (sep a b : List Char) (t : List (List Char)) :
    List.intercalate sep (a :: b :: t) =
      a ++ sep ++ List.intercalate sep (b :: t) := by
  simp [List.intercalate, List.intersperse_cons_cons]

theorem flatten_map_append_sep (l : List (List Char)) (h : l ≠ []) :
    (l.map (fun t => t ++ blankSep)).flatten =
      List.intercalate blankSep l ++ blankSep := by
  induction l with
  | nil => exact absurd rfl h
  | cons a t ih =>
    cases t with
    | nil => simp [List.intercalate]
    | cons b t2 =>
      have ht : b :: t2 ≠ [] := by simp
      calc (List.map (fun t => t ++ blankSep) (a :: b :: t2)).flatten
          = (a ++ blankSep) ++ (List.map (fun t => t ++ blankSep) (b :: t2)).flatten := by
            rw [List.map_cons, List.flatten_cons]
        _ = (a ++ blankSep) ++ (List.intercalate blankSep (b :: t2) ++ blankSep) := by
            rw [ih ht]
        _ = List.intercalate blankSep (a :: b :: t2) ++ blankSep := by
            rw [intercalate_cons_cons']
            simp [List.append_assoc]

/-- Claim C7: `extract_text` equals the spec's description — the
per-page texts (a page yielding no text contributing the empty
segment, never a failure) concatenated in page order with a blank line
between consecutive pages, the whole result stripped of leading and
trailing whitespace. -/
theorem c7_extract_text (pages : List (Option (List Char))) :
    extract_text pages = extractTextSpec pages := by
  unfold extract_text extractTextSpec
  rw [show pages.map (fun t => t.getD [] ++ blankSep) =
      (pages.map (fun t => t.getD [])).map (fun s => s ++ blankSep) from
    (List.map_map (fun s => s ++ blankSep)
      (fun t : Option (List Char) => t.getD []) pages).symm]
  generalize (pages.map fun t => t.getD []) = segs
  cases segs with
  | nil => rfl
  | cons a t =>
    rw [flatten_map_append_sep (a :: t) (by simp)]
    exact pyStrip_append_blankSep _

theorem fsLoop_snd_le (s : ℚ) (i : Nat) : (fsLoop s i).2 ≤ max 4 i := by
  induction s, i using fsLoop.induct with
  | case1 s i hc ih =>
    rw [fsLoop, dif_pos hc]
    have h2 := hc.2
    norm_num [size_names] at h2
    refine le_trans ih ?_
    omega
  | case2 s i hc =>
    rw [fsLoop, dif_neg hc]
    omega

theorem size_names_getD_mem (i : Nat) (h : i ≤ 4) :
    size_names.getD i "B" ∈ size_names := by
  interval_cases i <;> decide

/-- Claim C10: `format_file_size` terminates on every byte count (the
division loop is accepted as a terminating function and its unit index
stays at most 4, i.e. at most four division steps from index 0); the
returned string carries one of the unit names B, KB, MB, GB, TB as its
suffix; and the input 0 returns exactly "0 B". -/
theorem c10_format_file_size :
    format_file_size 0 = "0 B" ∧
    ∀ n : Nat, (fsLoop (n : ℚ) 0).2 ≤ 4 ∧
      ∃ u, u ∈ size_names ∧
        format_file_size n =
          if n = 0 then "0 B"
          else renderTenths (fsLoop (n : ℚ) 0).1 ++ " " ++ u := by
  refine ⟨rfl, fun n => ⟨?_, ?_⟩⟩
  · simpa using fsLoop_snd_le (n : ℚ) 0
  · by_cases hn : n = 0
    · exact ⟨"B", by decide, by simp [format_file_size, hn]⟩
    · refine ⟨size_names.getD (fsLoop (n : ℚ) 0).2 "B", ?_, ?_⟩
      · exact size_names_getD_mem _ (by simpa using fsLoop_snd_le (n : ℚ) 0)
      · simp [format_file_size, hn]

theorem c7_extract_text_witness :
    extract_text [some ['H', 'i'], none, some ['Y', 'o']] =
      extractTextSpec [some ['H', 'i'], none, some ['Y', 'o']] :=
  c7_extract_text [some ['H', 'i'], none, some ['Y', 'o']]

theorem c10_format_file_size_witness : format_file_size 0 = "0 B" :=
  c10_format_file_size.1
